import Mathlib

/-!
Shallow embedding of the lodge-booking web application (`src/app.py`).

The external Firebase realtime database is modelled as explicit state:
the `users/...` tree is an association list keyed by the normalized email,
and each push-collection (`bookings/...`, `reviews`, `contact_messages`)
is a list in push (insertion) order, since Firebase push keys are
chronologically ordered and `dict.values()` preserves key order.
The SMTP relay is modelled by recording the list of e-mails a handler
sends; Flask's `flash` calls are recorded as `(message, category)` pairs;
Flask's `session` is an `Option String` carrying the logged-in e-mail.
A Python `KeyError` from `request.form["k"]` (or the `TypeError` from
subscripting the `None` returned by a failed `get_user`) aborts the
request before any later effect, so a handler is a function into
`Except Err Result`: the `.error` case carries out no write and sends
no mail, exactly as an uncaught exception raised before those lines.
-/

/-- A stored user record: `{"name": name, "password": password}`. -/
structure UserRecord where
  name : String
  password : String
deriving DecidableEq, Repr

/-- A review record pushed by `save_review`. -/
structure Review where
  user : String
  name : String
  review : String
  rating : String
deriving DecidableEq, Repr

/-- A contact message pushed by `save_contact_message`.  Fields are
`Option String` because the anonymous branch of the `/contact` handler
obtains them with `request.form.get(...)`, which yields `None` when the
field is absent; `timestamp` is optional because list retrieval
(`get_all_contact_messages`) defends against records lacking it. -/
structure ContactMessage where
  name : Option String
  email : Option String
  phone : Option String
  message : Option String
  timestamp : Option String
deriving DecidableEq, Repr

/-- A booking record pushed by `save_booking` under `bookings/{category}`:
`{"user": user_email, **data}`. -/
structure Booking where
  category : String
  user : String
  data : List (String × String)
deriving DecidableEq, Repr

/-- The whole external database state. -/
structure AppState where
  users : List (String × UserRecord)
  bookings : List Booking
  reviews : List Review
  contacts : List ContactMessage
deriving DecidableEq, Repr

/-- An e-mail handed to the mail relay by `send_email(subject, recipient,
body)`.  The recipient is optional because the anonymous `/contact`
branch can pass the `None` produced by `request.form.get("email")`. -/
structure EmailMsg where
  subject : String
  recipient : Option String
  body : String
deriving DecidableEq, Repr

/-- What a request handler returns to Flask: either
`redirect(url_for(endpoint, next=cont))` or a template render
(`renderSuccess` for the booking templates that receive `success=`). -/
inductive Outcome where
  | redirect (endpoint : String) (cont : Option String)
  | render (template : String)
  | renderSuccess (template : String) (success : Bool)
deriving DecidableEq, Repr

/-- The observable effect of one request: the database afterwards, the
session afterwards, the e-mails sent, the flashes raised, and the HTTP
outcome. -/
structure Result where
  state : AppState
  session : Option String
  emails : List EmailMsg
  flashes : List (String × String)
  outcome : Outcome
deriving DecidableEq, Repr

/-- Error raised by a handler: a Python `KeyError` on
`request.form["key"]`, or the `TypeError` of subscripting `None` when
`get_user` found nothing. -/
inductive Err where
  | missingField (key : String)
  | noneSubscript
deriving DecidableEq, Repr

/-- HTTP method of the request. -/
inductive Method where
  | get
  | post
deriving DecidableEq, Repr

deriving instance DecidableEq for Except

/-- Submitted form data, as Flask's `request.form` multidict. -/
def Form := List (String × String)

/-- `request.form.get(key)`: `some` value or `none` when absent. -/
def formGet (f : Form) (key : String) : Option String :=
  (List.find? (fun p => p.1 == key) f).map Prod.snd

/-- `request.form[key]`: the value, or a raised `KeyError` when absent. -/
def formIndex (f : Form) (key : String) : Except Err String :=
  match formGet f key with
  | some v => .ok v
  | none => .error (.missingField key)

/-- The Firebase key for a user: `email.replace('.', '_')` (the pattern is
a single character, so the replacement maps each character `.` to `_`). -/
def normKey (email : String) : String :=
  String.mk (email.toList.map (fun c => if c = '.' then '_' else c))

/-- `get_user(email)`: read `users/{email.replace('.', '_')}`. -/
def get_user (st : AppState) (email : String) : Option UserRecord :=
  (List.find? (fun p => p.1 == normKey email) st.users).map Prod.snd

/-- `save_user(email, name, password)`: `set` overwrites the node at
`users/{email.replace('.', '_')}`. -/
def save_user (st : AppState) (email name password : String) : AppState :=
  { st with users :=
      (normKey email, ⟨name, password⟩) ::
        st.users.filter (fun p => p.1 != normKey email) }

/-- `save_booking(category, user_email, data)`: push one record. -/
def save_booking (st : AppState) (category user_email : String)
    (data : List (String × String)) : AppState :=
  { st with bookings := st.bookings ++ [⟨category, user_email, data⟩] }

/-- `save_review(user_email, name, review_text, rating)`: push one record. -/
def save_review (st : AppState) (user_email name review_text rating : String) :
    AppState :=
  { st with reviews := st.reviews ++ [⟨user_email, name, review_text, rating⟩] }

/-- `get_all_reviews()`: `list((ref.get() or {}).values())` in push order. -/
def get_all_reviews (st : AppState) : List Review :=
  st.reviews

/-- `save_contact_message(name, email, phone, message)`: push one record
with `timestamp = datetime.now().isoformat()`; the clock reading is the
`now` argument. -/
def save_contact_message (st : AppState)
    (name email phone message : Option String) (now : String) : AppState :=
  { st with contacts := st.contacts ++ [⟨name, email, phone, message, some now⟩] }

/-- Sort key used by `get_all_contact_messages`: `x.get("timestamp", "")`. -/
def tsKey (m : ContactMessage) : String :=
  m.timestamp.getD ""

/-- The descending comparison realised by
`sorted(..., key=lambda x: x.get("timestamp", ""), reverse=True)`:
`a` may stay before `b` when `b`'s key is at most `a`'s. -/
def msgGE (a b : ContactMessage) : Prop :=
  tsKey b ≤ tsKey a

instance : DecidableRel msgGE :=
  fun a b =>
    decidable_of_iff
      (¬ List.Lex (fun c d : Char => c < d) (tsKey a).toList (tsKey b).toList)
      (by rw [show msgGE a b = (tsKey b ≤ tsKey a) from rfl,
              String.le_iff_toList_le, ← not_lt]
          exact Iff.rfl)

instance : IsTotal ContactMessage msgGE :=
  ⟨fun a b => (le_total (tsKey b) (tsKey a)).imp id id⟩

instance : IsTrans ContactMessage msgGE :=
  ⟨fun _ _ _ h1 h2 => le_trans h2 h1⟩

/-- `get_all_contact_messages()`: the stored messages sorted by the
timestamp key in descending order. -/
def get_all_contact_messages (st : AppState) : List ContactMessage :=
  List.insertionSort msgGE st.contacts

/-- Python's rendering of an optional string inside an f-string:
`None` prints as the text `None`. -/
def pyStr (o : Option String) : String :=
  o.getD "None"

/-- Flask's `url_for` restricted to this application's route table
(`none` for an endpoint Flask would refuse to build). -/
def urlFor : String → Option String
  | "index" => some "/"
  | "about" => some "/about"
  | "gallery" => some "/gallery"
  | "map_page" => some "/map"
  | "kids" => some "/kids"
  | "contact" => some "/contact"
  | "reviews" => some "/reviews"
  | "signup" => some "/signup"
  | "login" => some "/login"
  | "logout" => some "/logout"
  | "book_hunt" => some "/book-hunt"
  | "accommodation" => some "/accommodation"
  | "water" => some "/purified-water"
  | _ => none

/-- `get_user(email)["name"]`: the `TypeError` of subscripting `None`
when the user record is absent. -/
def userName (st : AppState) (email : String) : Except Err String :=
  match get_user st email with
  | some u => .ok u.name
  | none => .error .noneSubscript

/-- `next_page or "index"`: Python `or` treats the empty string as falsy. -/
def orIndex : Option String → String
  | some s => if s = "" then "index" else s
  | none => "index"

/-- The `/contact` handler (`contact`).  `admin` is
`os.getenv("MAIL_USERNAME")`; `now` is the clock reading taken inside
`save_contact_message`. -/
def contact (admin : String) (m : Method) (sess : Option String)
    (form : Form) (now : String) (st : AppState) : Except Err Result :=
  match m with
  | .get => .ok ⟨st, sess, [], [], .render "contact.html"⟩
  | .post =>
    let finish : Option String → Option String → Option String → Result :=
      fun user_name email phone =>
        let message := formGet form "message"
        ⟨save_contact_message st user_name email phone message now, sess,
         [⟨"New Contact Message from Website", some admin,
           "New Contact Message\nName: " ++ pyStr user_name ++ "\nEmail: " ++
             pyStr email ++ "\nPhone: " ++ pyStr phone ++ "\nMessage:\n" ++
             pyStr message⟩,
          ⟨"We received your message", email,
           "Thank you for contacting Bakholokoe Game Reserve. We will reply shortly."⟩],
         [("Your message has been sent!", "success")],
         .redirect "contact" none⟩
    match sess with
    | some email =>
      match userName st email with
      | .error e => .error e
      | .ok n => .ok (finish (some n) (some email) (some ""))
    | none =>
      .ok (finish (formGet form "first_name") (formGet form "email")
            (formGet form "phone"))

/-- The `/reviews` handler (`reviews_page`). -/
def reviews_page (admin : String) (m : Method) (sess : Option String)
    (form : Form) (st : AppState) : Except Err Result :=
  match m with
  | .get => .ok ⟨st, sess, [], [], .render "reviews.html"⟩
  | .post =>
    match sess with
    | none => .ok ⟨st, none, [], [], .redirect "reviews" none⟩
    | some email =>
      if (get_all_reviews st).any (fun r => r.user == email) then
        .ok ⟨st, sess, [],
             [("You have already submitted a review.", "error")],
             .redirect "reviews" none⟩
      else
        match formIndex form "review" with
        | .error e => .error e
        | .ok review =>
          match formIndex form "rating" with
          | .error e => .error e
          | .ok rating =>
            match userName st email with
            | .error e => .error e
            | .ok name =>
              .ok ⟨save_review st email name review rating, sess,
                   [⟨"New Review Submitted", some admin,
                     "User: " ++ email ++ "\nName: " ++ name ++ "\nRating: " ++
                       rating ++ "\nReview: " ++ review⟩],
                   [("Review submitted!", "success")],
                   .redirect "reviews" none⟩

/-- The `/signup` handler (`signup`). -/
def signup (m : Method) (sess : Option String) (form : Form)
    (st : AppState) : Except Err Result :=
  match m with
  | .get => .ok ⟨st, sess, [], [], .render "signup.html"⟩
  | .post =>
    match formIndex form "name" with
    | .error e => .error e
    | .ok name =>
      match formIndex form "email" with
      | .error e => .error e
      | .ok email =>
        match formIndex form "password" with
        | .error e => .error e
        | .ok password =>
          if (get_user st email).isSome then
            .ok ⟨st, sess, [], [("User already exists", "error")],
                 .redirect "signup" none⟩
          else
            .ok ⟨save_user st email name password, sess, [],
                 [("Signup successful! Please login.", "success")],
                 .redirect "login" none⟩

/-- The `/login` handler (`login`); `nextParam` is `request.args.get("next")`. -/
def login (m : Method) (nextParam : Option String) (sess : Option String)
    (form : Form) (st : AppState) : Except Err Result :=
  match m with
  | .get => .ok ⟨st, sess, [], [], .render "login.html"⟩
  | .post =>
    match formIndex form "email" with
    | .error e => .error e
    | .ok email =>
      match formIndex form "password" with
      | .error e => .error e
      | .ok password =>
        match get_user st email with
        | none =>
          .ok ⟨st, sess, [], [("Incorrect email or password", "error")],
               .redirect "login" none⟩
        | some u =>
          if u.password != password then
            .ok ⟨st, sess, [], [("Incorrect email or password", "error")],
                 .redirect "login" none⟩
          else
            .ok ⟨st, some email, [], [("Login successful!", "success")],
                 .redirect (orIndex nextParam) none⟩

/-- The `/book-hunt` handler (`book_hunt`): the session gate precedes the
method dispatch. -/
def book_hunt (admin : String) (m : Method) (sess : Option String)
    (form : Form) (st : AppState) : Except Err Result :=
  match sess with
  | none => .ok ⟨st, none, [], [], .redirect "login" (some "book_hunt")⟩
  | some email =>
    match m with
    | .get => .ok ⟨st, sess, [], [], .renderSuccess "book_hunt.html" false⟩
    | .post =>
      match formIndex form "first_name" with
      | .error e => .error e
      | .ok first =>
        match formIndex form "contact" with
        | .error e => .error e
        | .ok contactNo =>
          match formIndex form "hunt_date" with
          | .error e => .error e
          | .ok date =>
            .ok ⟨save_booking st "hunt" email
                   [("first_name", first), ("contact", contactNo),
                    ("hunt_date", date)], sess,
                 [⟨"New Hunt Booking", some admin,
                   "User: " ++ email ++ "\nName: " ++ first ++ "\nContact: " ++
                     contactNo ++ "\nDate: " ++ date⟩],
                 [], .renderSuccess "book_hunt.html" true⟩

/-- The `/accommodation` handler (`accommodation`). -/
def accommodation (admin : String) (m : Method) (sess : Option String)
    (form : Form) (st : AppState) : Except Err Result :=
  match sess with
  | none => .ok ⟨st, none, [], [], .redirect "login" (some "accommodation")⟩
  | some email =>
    match m with
    | .get => .ok ⟨st, sess, [], [], .renderSuccess "accommodation.html" false⟩
    | .post =>
      match formIndex form "first_name" with
      | .error e => .error e
      | .ok first =>
        match formIndex form "contact" with
        | .error e => .error e
        | .ok contactNo =>
          match formIndex form "checkin_date" with
          | .error e => .error e
          | .ok date =>
            .ok ⟨save_booking st "accommodation" email
                   [("first_name", first), ("contact", contactNo),
                    ("checkin_date", date)], sess,
                 [⟨"New Accommodation Booking", some admin,
                   "User: " ++ email ++ "\nName: " ++ first ++ "\nContact: " ++
                     contactNo ++ "\nCheck-In: " ++ date⟩],
                 [], .renderSuccess "accommodation.html" true⟩

/-- The `/purified-water` handler (`water`). -/
def water (admin : String) (m : Method) (sess : Option String)
    (form : Form) (st : AppState) : Except Err Result :=
  match sess with
  | none => .ok ⟨st, none, [], [], .redirect "login" (some "water")⟩
  | some email =>
    match m with
    | .get => .ok ⟨st, sess, [], [], .renderSuccess "water.html" false⟩
    | .post =>
      match formIndex form "first_name" with
      | .error e => .error e
      | .ok first =>
        match formIndex form "contact" with
        | .error e => .error e
        | .ok contactNo =>
          match formIndex form "product_quantity" with
          | .error e => .error e
          | .ok qty =>
            match formIndex form "location" with
            | .error e => .error e
            | .ok location =>
              .ok ⟨save_booking st "water" email
                     [("first_name", first), ("contact", contactNo),
                      ("product_quantity", qty), ("location", location)], sess,
                   [⟨"New Water Order", some admin,
                     "User: " ++ email ++ "\nName: " ++ first ++ "\nContact: " ++
                       contactNo ++ "\nOrder: " ++ qty ++
                       "\nDelivery Location: " ++ location⟩],
                   [], .renderSuccess "water.html" true⟩

/-! ## Helper lemmas -/

theorem find?_filter_of_imp {α : Type} (l : List α) (p r : α → Bool)
    (h : ∀ a, p a = true → r a = true) :
    List.find? p (l.filter r) = List.find? p l := by
  induction l with
  | nil => rfl
  | cons a l ih =>
    cases hp : p a with
    | true =>
      have hr := h a hp
      simp [List.filter_cons, hr, hp]
    | false =>
      cases hr : r a with
      | true => simp [List.filter_cons, hr, hp, ih]
      | false => simp [List.filter_cons, hr, hp, ih]

theorem get_user_save_user (st : AppState) (e n p e' : String) :
    get_user (save_user st e n p) e' =
      if normKey e' = normKey e then some ⟨n, p⟩ else get_user st e' := by
  by_cases h : normKey e' = normKey e
  · simp [get_user, save_user, h]
  · rw [if_neg h]
    simp only [get_user, save_user]
    rw [List.find?_cons_of_neg, find?_filter_of_imp]
    · intro a ha
      have ha' : a.1 = normKey e' := by simpa using ha
      simp only [bne_iff_ne, ne_eq, ha']
      exact h
    · simp only [beq_iff_eq]
      exact fun hh => h hh.symm

theorem string_le_empty_iff (s : String) : s ≤ "" ↔ s = "" := by
  constructor
  · intro h
    rw [String.le_iff_toList_le, String.toList_empty] at h
    cases hs : s.toList with
    | nil => exact String.toList_inj.mp (by rw [hs, String.toList_empty])
    | cons c cs =>
      rw [hs] at h
      exact absurd (List.nil_lt_cons c cs) (not_lt_of_le h)
  · intro h
    exact le_of_eq (h ▸ rfl)

/-! ## Claim theorems -/

/-- Claim C2: after a successful signup for an e-mail, logging in with the
stored password succeeds and binds the session to that e-mail, while
logging in with any other password fails with the invalid-credentials
flash and establishes no session; the comparison is plain string equality
against the stored record. -/
theorem signup_then_login_plain_equality
    (name email password p : String) (st : AppState) (sf lf : Form)
    (h0 : get_user st email = none)
    (hn : formGet sf "name" = some name)
    (he : formGet sf "email" = some email)
    (hp : formGet sf "password" = some password)
    (hle : formGet lf "email" = some email)
    (hlp : formGet lf "password" = some p) :
    signup .post none sf st =
      .ok ⟨save_user st email name password, none, [],
           [("Signup successful! Please login.", "success")],
           .redirect "login" none⟩ ∧
    (p = password →
      login .post none none lf (save_user st email name password) =
        .ok ⟨save_user st email name password, some email, [],
             [("Login successful!", "success")], .redirect "index" none⟩) ∧
    (p ≠ password →
      login .post none none lf (save_user st email name password) =
        .ok ⟨save_user st email name password, none, [],
             [("Incorrect email or password", "error")],
             .redirect "login" none⟩) := by
  have hg : get_user (save_user st email name password) email =
      some ⟨name, password⟩ := by
    rw [get_user_save_user, if_pos rfl]
  refine ⟨?_, ?_, ?_⟩
  · simp [signup, formIndex, hn, he, hp, h0]
  · intro hpe
    subst hpe
    simp [login, formIndex, hle, hlp, hg, orIndex]
  · intro hne
    have : (password != p) = true := bne_iff_ne.mpr (fun hh => hne hh.symm)
    simp [login, formIndex, hle, hlp, hg, this]

/-- Witness for C2 at a concrete signup and login. -/
theorem signup_then_login_plain_equality_witness :
    signup .post none [("name", "N"), ("email", "e@x.com"), ("password", "pw")]
        ⟨[], [], [], []⟩ =
      .ok ⟨save_user ⟨[], [], [], []⟩ "e@x.com" "N" "pw", none, [],
           [("Signup successful! Please login.", "success")],
           .redirect "login" none⟩ ∧
    ("pw" = "pw" →
      login .post none none [("email", "e@x.com"), ("password", "pw")]
          (save_user ⟨[], [], [], []⟩ "e@x.com" "N" "pw") =
        .ok ⟨save_user ⟨[], [], [], []⟩ "e@x.com" "N" "pw", some "e@x.com", [],
             [("Login successful!", "success")], .redirect "index" none⟩) ∧
    ("pw" ≠ "pw" →
      login .post none none [("email", "e@x.com"), ("password", "pw")]
          (save_user ⟨[], [], [], []⟩ "e@x.com" "N" "pw") =
        .ok ⟨save_user ⟨[], [], [], []⟩ "e@x.com" "N" "pw", none, [],
             [("Incorrect email or password", "error")],
             .redirect "login" none⟩) :=
  signup_then_login_plain_equality "N" "e@x.com" "pw" "pw" ⟨[], [], [], []⟩
    [("name", "N"), ("email", "e@x.com"), ("password", "pw")]
    [("email", "e@x.com"), ("password", "pw")]
    (by decide) (by decide) (by decide) (by decide) (by decide) (by decide)

/-- Claim C3: a second signup with the same e-mail fails with the
already-exists flash, writes nothing (the state in its result is exactly
the state it was given), and the Identity Store still answers with the
first record. -/
theorem signup_twice_second_rejected
    (name1 pw1 name2 pw2 email : String) (st : AppState) (f1 f2 : Form)
    (h0 : get_user st email = none)
    (h1n : formGet f1 "name" = some name1)
    (h1e : formGet f1 "email" = some email)
    (h1p : formGet f1 "password" = some pw1)
    (h2n : formGet f2 "name" = some name2)
    (h2e : formGet f2 "email" = some email)
    (h2p : formGet f2 "password" = some pw2) :
    signup .post none f1 st =
      .ok ⟨save_user st email name1 pw1, none, [],
           [("Signup successful! Please login.", "success")],
           .redirect "login" none⟩ ∧
    signup .post none f2 (save_user st email name1 pw1) =
      .ok ⟨save_user st email name1 pw1, none, [],
           [("User already exists", "error")], .redirect "signup" none⟩ ∧
    get_user (save_user st email name1 pw1) email = some ⟨name1, pw1⟩ := by
  have hg : get_user (save_user st email name1 pw1) email =
      some ⟨name1, pw1⟩ := by
    rw [get_user_save_user, if_pos rfl]
  refine ⟨?_, ?_, hg⟩
  · simp [signup, formIndex, h1n, h1e, h1p, h0]
  · simp [signup, formIndex, h2n, h2e, h2p, hg]

/-- Witness for C3 at a concrete pair of signups. -/
theorem signup_twice_second_rejected_witness :
    signup .post none [("name", "A"), ("email", "e@x.com"), ("password", "p1")]
        ⟨[], [], [], []⟩ =
      .ok ⟨save_user ⟨[], [], [], []⟩ "e@x.com" "A" "p1", none, [],
           [("Signup successful! Please login.", "success")],
           .redirect "login" none⟩ ∧
    signup .post none [("name", "B"), ("email", "e@x.com"), ("password", "p2")]
        (save_user ⟨[], [], [], []⟩ "e@x.com" "A" "p1") =
      .ok ⟨save_user ⟨[], [], [], []⟩ "e@x.com" "A" "p1", none, [],
           [("User already exists", "error")], .redirect "signup" none⟩ ∧
    get_user (save_user ⟨[], [], [], []⟩ "e@x.com" "A" "p1") "e@x.com" =
      some ⟨"A", "p1"⟩ :=
  signup_twice_second_rejected "A" "p1" "B" "p2" "e@x.com" ⟨[], [], [], []⟩
    [("name", "A"), ("email", "e@x.com"), ("password", "p1")]
    [("name", "B"), ("email", "e@x.com"), ("password", "p2")]
    (by decide) (by decide) (by decide) (by decide) (by decide) (by decide)
    (by decide)

/-- Claim C9: the Identity Store keys records on the e-mail with every
dot replaced by an underscore, so the concrete distinct e-mails
"a.b@x.com" and "a_b@x_com" collide onto one stored record, while any
two e-mails with different normalized keys have independent records. -/
theorem user_key_normalization_collision :
    (("a.b@x.com" : String) ≠ "a_b@x_com" ∧
     normKey "a.b@x.com" = normKey "a_b@x_com" ∧
     ∀ (st : AppState) (n p : String),
       get_user (save_user st "a.b@x.com" n p) "a_b@x_com" = some ⟨n, p⟩) ∧
    (∀ (e1 e2 : String) (st : AppState) (n p : String),
      normKey e1 ≠ normKey e2 →
      get_user (save_user st e2 n p) e1 = get_user st e1) := by
  refine ⟨⟨by decide, by decide, ?_⟩, ?_⟩
  · intro st n p
    rw [get_user_save_user, if_pos (by decide)]
  · intro e1 e2 st n p h
    rw [get_user_save_user, if_neg h]

/-- Witness for C9: independence of two concretely different keys. -/
theorem user_key_normalization_collision_witness :
    get_user (save_user ⟨[], [], [], []⟩ "b@x.com" "N" "pw") "a@x.com" =
      get_user ⟨[], [], [], []⟩ "a@x.com" :=
  user_key_normalization_collision.2 "a@x.com" "b@x.com" ⟨[], [], [], []⟩
    "N" "pw" (by decide)

/-- Claim C1: from a state with no review by the submitter, the first
review submission succeeds (one record pushed, one admin e-mail, success
flash) and the submitted record is the one review by that submitter in
the collection; a second submission by the same identity is rejected
with the already-submitted flash, leaves the collection exactly as it
was, and sends no e-mail, so exactly one review by that submitter
remains. -/
theorem duplicate_review_rejected
    (admin email name pw rtext rating : String) (st : AppState)
    (f1 f2 : Form)
    (h0 : (get_all_reviews st).any (fun r => r.user == email) = false)
    (hu : get_user st email = some ⟨name, pw⟩)
    (hr : formGet f1 "review" = some rtext)
    (hra : formGet f1 "rating" = some rating) :
    reviews_page admin .post (some email) f1 st =
      .ok ⟨save_review st email name rtext rating, some email,
           [⟨"New Review Submitted", some admin,
             "User: " ++ email ++ "\nName: " ++ name ++ "\nRating: " ++
               rating ++ "\nReview: " ++ rtext⟩],
           [("Review submitted!", "success")], .redirect "reviews" none⟩ ∧
    (get_all_reviews (save_review st email name rtext rating)).filter
        (fun r => r.user == email) = [⟨email, name, rtext, rating⟩] ∧
    reviews_page admin .post (some email) f2
        (save_review st email name rtext rating) =
      .ok ⟨save_review st email name rtext rating, some email, [],
           [("You have already submitted a review.", "error")],
           .redirect "reviews" none⟩ := by
  have hnil : st.reviews.filter (fun r => r.user == email) = [] := by
    rw [List.filter_eq_nil_iff]
    intro a ha
    have := (List.any_eq_false.mp h0) a ha
    simpa using this
  refine ⟨?_, ?_, ?_⟩
  · simp [reviews_page, h0, formIndex, hr, hra, userName, hu]
  · simp [get_all_reviews, save_review, List.filter_append, hnil]
  · have hany : (get_all_reviews (save_review st email name rtext rating)).any
        (fun r => r.user == email) = true := by
      simp [get_all_reviews, save_review]
    simp [reviews_page, hany]

/-- Witness for C1 at a concrete submitter and state. -/
theorem duplicate_review_rejected_witness :
    reviews_page "admin@lodge" .post (some "e@x.com")
        [("review", "great"), ("rating", "5")]
        ⟨[("e@x_com", ⟨"N", "pw"⟩)], [], [], []⟩ =
      .ok ⟨save_review ⟨[("e@x_com", ⟨"N", "pw"⟩)], [], [], []⟩ "e@x.com" "N"
             "great" "5", some "e@x.com",
           [⟨"New Review Submitted", some "admin@lodge",
             "User: " ++ "e@x.com" ++ "\nName: " ++ "N" ++ "\nRating: " ++
               "5" ++ "\nReview: " ++ "great"⟩],
           [("Review submitted!", "success")], .redirect "reviews" none⟩ ∧
    (get_all_reviews (save_review ⟨[("e@x_com", ⟨"N", "pw"⟩)], [], [], []⟩
        "e@x.com" "N" "great" "5")).filter (fun r => r.user == "e@x.com") =
      [⟨"e@x.com", "N", "great", "5"⟩] ∧
    reviews_page "admin@lodge" .post (some "e@x.com") []
        (save_review ⟨[("e@x_com", ⟨"N", "pw"⟩)], [], [], []⟩ "e@x.com" "N"
          "great" "5") =
      .ok ⟨save_review ⟨[("e@x_com", ⟨"N", "pw"⟩)], [], [], []⟩ "e@x.com" "N"
             "great" "5", some "e@x.com", [],
           [("You have already submitted a review.", "error")],
           .redirect "reviews" none⟩ :=
  duplicate_review_rejected "admin@lodge" "e@x.com" "N" "pw" "great" "5"
    ⟨[("e@x_com", ⟨"N", "pw"⟩)], [], [], []⟩
    [("review", "great"), ("rating", "5")] []
    (by decide) (by decide) (by decide) (by decide)

/-- Claim C4 (evaluation of the code at the divergence): an
unauthenticated request to each of the three booking workflows redirects
to login carrying a continuation naming that workflow, with no write and
no e-mail; but an unauthenticated POST to the review workflow does NOT
redirect to login — it redirects straight back to the reviews page with
no continuation, no flash, no write and no e-mail, a silent no-op. -/
theorem gated_workflow_unauthenticated_behavior :
    (∀ (admin : String) (m : Method) (form : Form) (st : AppState),
      book_hunt admin m none form st =
        .ok ⟨st, none, [], [], .redirect "login" (some "book_hunt")⟩) ∧
    (∀ (admin : String) (m : Method) (form : Form) (st : AppState),
      accommodation admin m none form st =
        .ok ⟨st, none, [], [], .redirect "login" (some "accommodation")⟩) ∧
    (∀ (admin : String) (m : Method) (form : Form) (st : AppState),
      water admin m none form st =
        .ok ⟨st, none, [], [], .redirect "login" (some "water")⟩) ∧
    (∀ (admin : String) (form : Form) (st : AppState),
      reviews_page admin .post none form st =
        .ok ⟨st, none, [], [], .redirect "reviews" none⟩) :=
  ⟨fun _ _ _ _ => rfl, fun _ _ _ _ => rfl, fun _ _ _ _ => rfl,
   fun _ _ _ => rfl⟩

/-- Claim C5: an unauthenticated request to /book-hunt redirects to
login with the continuation "book_hunt", and a successful login carrying
that continuation redirects to the book-hunt endpoint (path /book-hunt),
not to the default landing page /. -/
theorem book_hunt_login_continuation
    (admin name password email : String) (m : Method) (st : AppState)
    (bform lform : Form)
    (hu : get_user st email = some ⟨name, password⟩)
    (hle : formGet lform "email" = some email)
    (hlp : formGet lform "password" = some password) :
    book_hunt admin m none bform st =
      .ok ⟨st, none, [], [], .redirect "login" (some "book_hunt")⟩ ∧
    login .post (some "book_hunt") none lform st =
      .ok ⟨st, some email, [], [("Login successful!", "success")],
           .redirect "book_hunt" none⟩ ∧
    urlFor "book_hunt" = some "/book-hunt" ∧
    urlFor "index" = some "/" ∧
    ("/book-hunt" : String) ≠ "/" := by
  refine ⟨rfl, ?_, rfl, rfl, by decide⟩
  simp [login, formIndex, hle, hlp, hu, orIndex]

/-- Witness for C5 at a concrete user and state. -/
theorem book_hunt_login_continuation_witness :
    book_hunt "admin@lodge" .post none [] ⟨[("e@x_com", ⟨"N", "pw"⟩)], [], [], []⟩ =
      .ok ⟨⟨[("e@x_com", ⟨"N", "pw"⟩)], [], [], []⟩, none, [], [],
           .redirect "login" (some "book_hunt")⟩ ∧
    login .post (some "book_hunt") none [("email", "e@x.com"), ("password", "pw")]
        ⟨[("e@x_com", ⟨"N", "pw"⟩)], [], [], []⟩ =
      .ok ⟨⟨[("e@x_com", ⟨"N", "pw"⟩)], [], [], []⟩, some "e@x.com", [],
           [("Login successful!", "success")], .redirect "book_hunt" none⟩ ∧
    urlFor "book_hunt" = some "/book-hunt" ∧
    urlFor "index" = some "/" ∧
    ("/book-hunt" : String) ≠ "/" :=
  book_hunt_login_continuation "admin@lodge" "N" "pw" "e@x.com" .post
    ⟨[("e@x_com", ⟨"N", "pw"⟩)], [], [], []⟩ []
    [("email", "e@x.com"), ("password", "pw")]
    (by decide) (by decide) (by decide)

/-- Claim C6: for every state of the contact-message collection, the
retrieved list is a permutation of the stored messages, sorted by the
timestamp key in descending order, where a missing timestamp sorts as
the empty string; consequently a message lacking a timestamp appears at
a strictly later position than every message whose timestamp key is
nonempty. -/
theorem contact_messages_sorted_desc (st : AppState) :
    List.Perm (get_all_contact_messages st) st.contacts ∧
    (get_all_contact_messages st).Sorted msgGE ∧
    ∀ (i j : Fin (get_all_contact_messages st).length),
      ((get_all_contact_messages st).get i).timestamp = none →
      tsKey ((get_all_contact_messages st).get j) ≠ "" →
      (j : Nat) < (i : Nat) := by
  refine ⟨List.perm_insertionSort msgGE st.contacts,
          List.sorted_insertionSort msgGE st.contacts, ?_⟩
  intro i j hnone hne
  have hkey : tsKey ((get_all_contact_messages st).get i) = "" := by
    simp only [tsKey, hnone, Option.getD_none]
  rcases lt_trichotomy (j : Nat) (i : Nat) with h | h | h
  · exact h
  · exfalso
    have hij : j = i := Fin.ext h
    rw [hij, hkey] at hne
    exact hne rfl
  · exfalso
    have hrel := (List.sorted_insertionSort msgGE st.contacts).rel_get_of_lt
      (a := i) (b := j) h
    have hrel' : tsKey ((get_all_contact_messages st).get j) ≤
        tsKey ((get_all_contact_messages st).get i) := hrel
    rw [hkey] at hrel'
    exact hne ((string_le_empty_iff _).mp hrel')

/-- Witness for C6: in a concrete two-message store the untimestamped
message comes out after the timestamped one. -/
theorem contact_messages_sorted_desc_witness : (0 : Nat) < 1 :=
  (contact_messages_sorted_desc
      ⟨[], [], [],
       [⟨some "a", none, none, none, none⟩,
        ⟨some "b", none, none, none, some "2024-01-01"⟩]⟩).2.2
    ⟨1, by decide⟩ ⟨0, by decide⟩ (by decide) (by decide)

/-- Claim C7: an anonymous POST to /contact with all four fields present
appends exactly one contact message holding those values plus the
timestamp, sends exactly two e-mails (the admin notification and the
acknowledgment addressed to the submitted e-mail), and redirects back to
/contact with the success flash. -/
theorem anonymous_contact_submission
    (admin nm em ph msg now : String) (f : Form) (st : AppState)
    (h1 : formGet f "first_name" = some nm)
    (h2 : formGet f "email" = some em)
    (h3 : formGet f "phone" = some ph)
    (h4 : formGet f "message" = some msg) :
    contact admin .post none f now st =
      .ok ⟨{ st with contacts :=
               st.contacts ++ [⟨some nm, some em, some ph, some msg, some now⟩] },
           none,
           [⟨"New Contact Message from Website", some admin,
             "New Contact Message\nName: " ++ nm ++ "\nEmail: " ++ em ++
               "\nPhone: " ++ ph ++ "\nMessage:\n" ++ msg⟩,
            ⟨"We received your message", some em,
             "Thank you for contacting Bakholokoe Game Reserve. We will reply shortly."⟩],
           [("Your message has been sent!", "success")],
           .redirect "contact" none⟩ := by
  simp [contact, save_contact_message, h1, h2, h3, h4, pyStr]

/-- Witness for C7 at the spec's concrete scenario. -/
theorem anonymous_contact_submission_witness :
    contact "admin@lodge" .post none
        [("first_name", "Jane"), ("email", "jane@x.com"), ("phone", "555"),
         ("message", "Hi")] "T0" ⟨[], [], [], []⟩ =
      .ok ⟨{ (⟨[], [], [], []⟩ : AppState) with contacts :=
               ([] : List ContactMessage) ++
                 [⟨some "Jane", some "jane@x.com", some "555", some "Hi",
                   some "T0"⟩] },
           none,
           [⟨"New Contact Message from Website", some "admin@lodge",
             "New Contact Message\nName: " ++ "Jane" ++ "\nEmail: " ++
               "jane@x.com" ++ "\nPhone: " ++ "555" ++ "\nMessage:\n" ++ "Hi"⟩,
            ⟨"We received your message", some "jane@x.com",
             "Thank you for contacting Bakholokoe Game Reserve. We will reply shortly."⟩],
           [("Your message has been sent!", "success")],
           .redirect "contact" none⟩ :=
  anonymous_contact_submission "admin@lodge" "Jane" "jane@x.com" "555" "Hi"
    "T0"
    [("first_name", "Jane"), ("email", "jane@x.com"), ("phone", "555"),
     ("message", "Hi")]
    ⟨[], [], [], []⟩ (by decide) (by decide) (by decide) (by decide)

/-- Claim C10: an authenticated POST to /contact takes the name from the
Identity Store record of the session e-mail, the e-mail from the session
identity, stores the empty string as phone, and takes only the message
field from the form; all other form values are ignored (the result does
not depend on them). -/
theorem authenticated_contact_uses_identity
    (admin E uname upw now : String) (form : Form) (st : AppState)
    (hu : get_user st E = some ⟨uname, upw⟩) :
    contact admin .post (some E) form now st =
      .ok ⟨{ st with contacts :=
               st.contacts ++
                 [⟨some uname, some E, some "", formGet form "message",
                   some now⟩] },
           some E,
           [⟨"New Contact Message from Website", some admin,
             "New Contact Message\nName: " ++ uname ++ "\nEmail: " ++ E ++
               "\nPhone: " ++ "" ++ "\nMessage:\n" ++
               pyStr (formGet form "message")⟩,
            ⟨"We received your message", some E,
             "Thank you for contacting Bakholokoe Game Reserve. We will reply shortly."⟩],
           [("Your message has been sent!", "success")],
           .redirect "contact" none⟩ := by
  simp [contact, userName, hu, save_contact_message, pyStr]

/-- Witness for C10 at a concrete session and store: the form's own
name, e-mail and phone entries are ignored. -/
theorem authenticated_contact_uses_identity_witness :
    contact "admin@lodge" .post (some "e@x.com")
        [("first_name", "Ignored"), ("email", "other@x.com"),
         ("phone", "999"), ("message", "Hi")] "T0"
        ⟨[("e@x_com", ⟨"N", "pw"⟩)], [], [], []⟩ =
      .ok ⟨{ (⟨[("e@x_com", ⟨"N", "pw"⟩)], [], [], []⟩ : AppState) with
               contacts :=
               ([] : List ContactMessage) ++
                 [⟨some "N", some "e@x.com", some "",
                   formGet [("first_name", "Ignored"), ("email", "other@x.com"),
                            ("phone", "999"), ("message", "Hi")] "message",
                   some "T0"⟩] },
           some "e@x.com",
           [⟨"New Contact Message from Website", some "admin@lodge",
             "New Contact Message\nName: " ++ "N" ++ "\nEmail: " ++ "e@x.com" ++
               "\nPhone: " ++ "" ++ "\nMessage:\n" ++
               pyStr (formGet [("first_name", "Ignored"), ("email", "other@x.com"),
                               ("phone", "999"), ("message", "Hi")] "message")⟩,
            ⟨"We received your message", some "e@x.com",
             "Thank you for contacting Bakholokoe Game Reserve. We will reply shortly."⟩],
           [("Your message has been sent!", "success")],
           .redirect "contact" none⟩ :=
  authenticated_contact_uses_identity "admin@lodge" "e@x.com" "N" "pw" "T0"
    [("first_name", "Ignored"), ("email", "other@x.com"), ("phone", "999"),
     ("message", "Hi")]
    ⟨[("e@x_com", ⟨"N", "pw"⟩)], [], [], []⟩ (by decide)

/-- Counterexample to claim C8 as stated: an anonymous POST to /contact
with the phone field absent is not a hard failure — the handler raises
nothing, persists one record (with the missing field stored as null) and
still sends both e-mails. -/
theorem contact_missing_field_still_persists :
    contact "admin@lodge" .post none
        [("first_name", "Jane"), ("email", "jane@x.com"), ("message", "Hi")]
        "T0" ⟨[], [], [], []⟩ =
      .ok ⟨⟨[], [], [],
            [⟨some "Jane", some "jane@x.com", none, some "Hi", some "T0"⟩]⟩,
           none,
           [⟨"New Contact Message from Website", some "admin@lodge",
             "New Contact Message\nName: Jane\nEmail: jane@x.com\nPhone: None\nMessage:\nHi"⟩,
            ⟨"We received your message", some "jane@x.com",
             "Thank you for contacting Bakholokoe Game Reserve. We will reply shortly."⟩],
           [("Your message has been sent!", "success")],
           .redirect "contact" none⟩ := by
  decide

/-- Claim C8 (amended): the signup, login, review and booking workflows
raise on the first missing required form field, performing no persist
and sending no notification; the contact workflow instead reads its
fields with a defaulting lookup, never fails on an absent field, and
persists and notifies regardless. -/
theorem missing_field_outcomes :
    (∀ (sess : Option String) (st : AppState) (form : Form),
      (formGet form "name" = none ∨ formGet form "email" = none ∨
        formGet form "password" = none) →
      ∃ k, signup .post sess form st = .error (.missingField k)) ∧
    (∀ (np sess : Option String) (st : AppState) (form : Form),
      (formGet form "email" = none ∨ formGet form "password" = none) →
      ∃ k, login .post np sess form st = .error (.missingField k)) ∧
    (∀ (admin email : String) (st : AppState) (form : Form),
      (get_all_reviews st).any (fun r => r.user == email) = false →
      (formGet form "review" = none ∨ formGet form "rating" = none) →
      ∃ k, reviews_page admin .post (some email) form st =
        .error (.missingField k)) ∧
    (∀ (admin email : String) (st : AppState) (form : Form),
      (formGet form "first_name" = none ∨ formGet form "contact" = none ∨
        formGet form "hunt_date" = none) →
      ∃ k, book_hunt admin .post (some email) form st =
        .error (.missingField k)) ∧
    (∀ (admin email : String) (st : AppState) (form : Form),
      (formGet form "first_name" = none ∨ formGet form "contact" = none ∨
        formGet form "checkin_date" = none) →
      ∃ k, accommodation admin .post (some email) form st =
        .error (.missingField k)) ∧
    (∀ (admin email : String) (st : AppState) (form : Form),
      (formGet form "first_name" = none ∨ formGet form "contact" = none ∨
        formGet form "product_quantity" = none ∨
        formGet form "location" = none) →
      ∃ k, water admin .post (some email) form st =
        .error (.missingField k)) ∧
    (∀ (admin now : String) (st : AppState) (form : Form),
      ∃ r, contact admin .post none form now st = .ok r ∧
        r.state.contacts.length = st.contacts.length + 1 ∧
        r.emails.length = 2) := by
  refine ⟨?_, ?_, ?_, ?_, ?_, ?_, ?_⟩
  · intro sess st form h
    rcases hn : formGet form "name" with _ | vn
    · exact ⟨"name", by simp [signup, formIndex, hn]⟩
    rcases he : formGet form "email" with _ | ve
    · exact ⟨"email", by simp [signup, formIndex, hn, he]⟩
    rcases hp : formGet form "password" with _ | vp
    · exact ⟨"password", by simp [signup, formIndex, hn, he, hp]⟩
    rcases h with h | h | h <;> simp_all
  · intro np sess st form h
    rcases he : formGet form "email" with _ | ve
    · exact ⟨"email", by simp [login, formIndex, he]⟩
    rcases hp : formGet form "password" with _ | vp
    · exact ⟨"password", by simp [login, formIndex, he, hp]⟩
    rcases h with h | h <;> simp_all
  · intro admin email st form h0 h
    rcases hr : formGet form "review" with _ | vr
    · exact ⟨"review", by simp [reviews_page, h0, formIndex, hr]⟩
    rcases hra : formGet form "rating" with _ | vra
    · exact ⟨"rating", by simp [reviews_page, h0, formIndex, hr, hra]⟩
    rcases h with h | h <;> simp_all
  · intro admin email st form h
    rcases hf : formGet form "first_name" with _ | vf
    · exact ⟨"first_name", by simp [book_hunt, formIndex, hf]⟩
    rcases hc : formGet form "contact" with _ | vc
    · exact ⟨"contact", by simp [book_hunt, formIndex, hf, hc]⟩
    rcases hd : formGet form "hunt_date" with _ | vd
    · exact ⟨"hunt_date", by simp [book_hunt, formIndex, hf, hc, hd]⟩
    rcases h with h | h | h <;> simp_all
  · intro admin email st form h
    rcases hf : formGet form "first_name" with _ | vf
    · exact ⟨"first_name", by simp [accommodation, formIndex, hf]⟩
    rcases hc : formGet form "contact" with _ | vc
    · exact ⟨"contact", by simp [accommodation, formIndex, hf, hc]⟩
    rcases hd : formGet form "checkin_date" with _ | vd
    · exact ⟨"checkin_date", by simp [accommodation, formIndex, hf, hc, hd]⟩
    rcases h with h | h | h <;> simp_all
  · intro admin email st form h
    rcases hf : formGet form "first_name" with _ | vf
    · exact ⟨"first_name", by simp [water, formIndex, hf]⟩
    rcases hc : formGet form "contact" with _ | vc
    · exact ⟨"contact", by simp [water, formIndex, hf, hc]⟩
    rcases hq : formGet form "product_quantity" with _ | vq
    · exact ⟨"product_quantity", by simp [water, formIndex, hf, hc, hq]⟩
    rcases hl : formGet form "location" with _ | vl
    · exact ⟨"location", by simp [water, formIndex, hf, hc, hq, hl]⟩
    rcases h with h | h | h | h <;> simp_all
  · intro admin now st form
    refine ⟨_, rfl, ?_, rfl⟩
    simp [contact, save_contact_message]

/-- Witness for the amended C8: a fully empty signup form raises the
missing-name error. -/
theorem missing_field_outcomes_witness :
    ∃ k, signup .post none [] ⟨[], [], [], []⟩ = .error (.missingField k) :=
  missing_field_outcomes.1 none ⟨[], [], [], []⟩ [] (Or.inl (by decide))
